import Mathlib

/-!
# flight-control: joystick ticks, link events and the frame loop of `main.go`

A shallow embedding of `src/main.go`.

* Axis values.  Every value an axis handler stores is `float64(data.(int16))`,
  and `work` stores `float64(0.0)`; all of them are integers that `float64`
  represents exactly, and the thresholds they are compared with (`-10`, `10`,
  `-1000`, `1000`, `-20`, `20`) are integers too.  Axis values are therefore
  modelled as `Int`, and the comparisons are the integer comparisons.
* `atomic.Value`.  A store that has never been written loads `nil`; the
  single-result type assertion applied to the loaded value then panics.  A
  store is modelled as an `Option`, the load-and-assert as a bind.
* Calls on the drone driver, the recording sink, the encoder and the stream
  are recorded as values, in the order in which the code makes them.
-/

namespace FlightControl

/-! ## Data model -/

/-- The struct `stickPair` of `main.go`. -/
structure stickPair where
  x : Int
  y : Int
  deriving DecidableEq, Repr

/-- The constant `offset = 32767.0` of `main.go`. -/
def offset : Int := 32767

/-- The constant `frameX` of `main.go`. -/
def frameX : Nat := 960

/-- The constant `frameY` of `main.go`. -/
def frameY : Nat := 720

/-- The constant `frameSize = frameX * frameY * 3` of `main.go`. -/
def frameSize : Nat := frameX * frameY * 3

namespace tello

/-- The bit-rate levels of the driver; `main.go` only names `VideoBitRate1M`. -/
inductive VideoBitRate where
  | VideoBitRateAuto
  | VideoBitRate1M
  | VideoBitRate15M
  | VideoBitRate2M
  | VideoBitRate3M
  | VideoBitRate4M
  deriving DecidableEq, Repr

/-- The fields of `tello.FlightData` that `main.go` reads, directly or through
`GroundSpeed()` and `AirSpeed()`. -/
structure FlightData where
  BatteryPercentage : Int
  TemperatureHigh : Bool
  PressureState : Bool
  NorthSpeed : Int
  EastSpeed : Int
  VerticalSpeed : Int
  Height : Int
  Flying : Bool
  OnGround : Bool
  DroneHover : Bool
  deriving DecidableEq, Repr

/-- Modelled from the spec: `tello.ValidatePitch`, a function of the gobot
driver package that `main.go` imports; its body is not part of `src/`.  The
spec describes it as mapping a raw axis value to a normalised magnitude,
an integer percentage in `0..100` computed from `|data| / offset` by
truncation, saturating at `100` once `|data|` reaches `offset`. -/
def ValidatePitch (data : Int) (offset : Int) : Int :=
  if offset ≤ (Int.natAbs data : Int) then 100
  else ((Int.natAbs data : Int) * 100) / offset

end tello

/-- One call on the drone driver, as made by `main.go`. -/
inductive DroneCall where
  | StartVideo
  | SetVideoEncoderRate (rate : tello.VideoBitRate)
  | SetExposure (level : Int)
  | TakeOff
  | Land
  | LeftFlip
  | RightFlip
  | Forward (val : Int)
  | Backward (val : Int)
  | Left (val : Int)
  | Right (val : Int)
  | Up (val : Int)
  | Down (val : Int)
  | Clockwise (val : Int)
  | CounterClockwise (val : Int)
  deriving DecidableEq, Repr

/-- The magnitude argument of a move call; `none` for the other calls. -/
def DroneCall.magnitude : DroneCall → Option Int
  | .Forward v => some v
  | .Backward v => some v
  | .Left v => some v
  | .Right v => some v
  | .Up v => some v
  | .Down v => some v
  | .Clockwise v => some v
  | .CounterClockwise v => some v
  | _ => none

/-- The package-level `atomic.Value` stores of `main.go`. -/
structure Shared where
  leftX : Option Int
  leftY : Option Int
  rightX : Option Int
  rightY : Option Int
  batteryLevel : Option Int
  flightData : Option tello.FlightData
  deriving DecidableEq, Repr

/-- The stores at program start: nothing has been written. -/
def Shared.unwritten : Shared :=
  ⟨none, none, none, none, none, none⟩

/-- The four stores at the top of `work`. -/
def workInit (st : Shared) : Shared :=
  { st with leftX := some 0, leftY := some 0, rightX := some 0, rightY := some 0 }

/-- The function `getLeftStick`. -/
def getLeftStick (st : Shared) : Option stickPair := do
  let x ← st.leftX
  let y ← st.leftY
  pure ⟨x, y⟩

/-- The function `getRightStick`. -/
def getRightStick (st : Shared) : Option stickPair := do
  let x ← st.rightX
  let y ← st.rightY
  pure ⟨x, y⟩

/-! ## The two control ticks of `workStick` -/

/-- Body of the first `gobot.Every(50*time.Millisecond, ...)` of `workStick`,
after `rightStick := getRightStick()`: the two `switch` statements, in order. -/
def translationBody (rightStick : stickPair) : List DroneCall :=
  [ (if rightStick.y < -10 then
       DroneCall.Forward (tello.ValidatePitch rightStick.y offset)
     else if rightStick.y > 10 then
       DroneCall.Backward (tello.ValidatePitch rightStick.y offset)
     else
       DroneCall.Forward 0),
    (if rightStick.x > 10 then
       DroneCall.Right (tello.ValidatePitch rightStick.x offset)
     else if rightStick.x < -10 then
       DroneCall.Left (tello.ValidatePitch rightStick.x offset)
     else
       DroneCall.Right 0) ]

/-- Body of the second `gobot.Every(50*time.Millisecond, ...)` of `workStick`,
after `leftStick := getLeftStick()`. -/
def throttleBody (leftStick : stickPair) : List DroneCall :=
  [ (if leftStick.y < -1000 then
       DroneCall.Up (tello.ValidatePitch leftStick.y offset)
     else if leftStick.y > 1000 then
       DroneCall.Down (tello.ValidatePitch leftStick.y offset)
     else
       DroneCall.Up 0),
    (if leftStick.x > 20 then
       DroneCall.Clockwise (tello.ValidatePitch leftStick.x offset)
     else if leftStick.x < -20 then
       DroneCall.CounterClockwise (tello.ValidatePitch leftStick.x offset)
     else
       DroneCall.Clockwise 0) ]

/-- One firing of the translation tick; `none` is the panic of a load from a
store that was never written. -/
def translationTick (st : Shared) : Option (List DroneCall) :=
  (getRightStick st).map translationBody

/-- One firing of the throttle/yaw tick. -/
def throttleTick (st : Shared) : Option (List DroneCall) :=
  (getLeftStick st).map throttleBody

/-! ## Joystick events -/

/-- The joystick events `workStick` subscribes to; an axis event carries the
`int16` payload. -/
inductive StickEvent where
  | SquarePress
  | TrianglePress
  | CirclePress
  | XPress
  | StartPress
  | SelectPress
  | LeftX (data : Int)
  | LeftY (data : Int)
  | RightX (data : Int)
  | RightY (data : Int)
  deriving DecidableEq, Repr

/-- The range of the `int16` payload of an axis event. -/
def isInt16 (v : Int) : Prop := -32768 ≤ v ∧ v ≤ 32767

instance (v : Int) : Decidable (isInt16 v) := by
  unfold isInt16; infer_instance

/-- The handlers registered by `stick.On` in `workStick`: the new stores and
the driver calls made. -/
def stickOn (ev : StickEvent) (st : Shared) : Shared × List DroneCall :=
  match ev with
  | .SquarePress => (st, [DroneCall.LeftFlip])
  | .TrianglePress => (st, [DroneCall.TakeOff])
  | .CirclePress => (st, [DroneCall.RightFlip])
  | .XPress => (st, [DroneCall.Land])
  | .StartPress => (st, [])
  | .SelectPress => (st, [])
  | .LeftX data => ({ st with leftX := some data }, [])
  | .LeftY data => ({ st with leftY := some data }, [])
  | .RightX data => ({ st with rightX := some data }, [])
  | .RightY data => ({ st with rightY := some data }, [])

/-- The handlers run over a sequence of joystick events, calls in order. -/
def stickRun : List StickEvent → Shared → Shared × List DroneCall
  | [], st => (st, [])
  | ev :: evs, st =>
      let r := stickOn ev st
      let r2 := stickRun evs r.1
      (r2.1, r.2 ++ r2.2)

/-! ## Link events: the handlers registered by `work` -/

/-- The events of the aircraft link that `work` subscribes to.  A video frame
event carries the packet and whether `ffmpegIn.Write` returns an error. -/
inductive LinkEvent where
  | ConnectedEvent
  | VideoFrameEvent (pkt : List Nat) (writeFails : Bool)
  | FlightDataEvent (fd : tello.FlightData)
  deriving DecidableEq, Repr

/-- A task armed with `gobot.Every`: its period in milliseconds and the driver
calls one firing of its body makes. -/
structure Recurring where
  periodMs : Nat
  body : List DroneCall
  deriving DecidableEq, Repr

/-- One firing of a recurring task. -/
def Recurring.fire (t : Recurring) : List DroneCall := t.body

/-- What a link handler does, in order. -/
inductive LinkAction where
  | call (c : DroneCall)
  | every (t : Recurring)
  | ffmpegWrite (pkt : List Nat)
  | println
  deriving DecidableEq, Repr

/-- The handlers registered by `drone.On` in `work`. -/
def droneOn (ev : LinkEvent) (st : Shared) : Shared × List LinkAction :=
  match ev with
  | .ConnectedEvent =>
      (st, [ LinkAction.call DroneCall.StartVideo,
             LinkAction.call (DroneCall.SetVideoEncoderRate tello.VideoBitRate.VideoBitRate1M),
             LinkAction.call (DroneCall.SetExposure 0),
             LinkAction.every ⟨100, [DroneCall.StartVideo]⟩ ])
  | .VideoFrameEvent pkt writeFails =>
      (st, if writeFails then [LinkAction.ffmpegWrite pkt, LinkAction.println]
           else [LinkAction.ffmpegWrite pkt])
  | .FlightDataEvent fd =>
      ({ st with flightData := some fd }, [])

/-- The handlers run over a sequence of link events, actions in order. -/
def droneRun : List LinkEvent → Shared → Shared × List LinkAction
  | [], st => (st, [])
  | ev :: evs, st =>
      let r := droneOn ev st
      let r2 := droneRun evs r.1
      (r2.1, r.2 ++ r2.2)

/-- The driver calls among a list of actions, in order. -/
def callsOf : List LinkAction → List DroneCall
  | [] => []
  | LinkAction.call c :: as => c :: callsOf as
  | _ :: as => callsOf as

/-- The recurring tasks armed by a list of actions, in order. -/
def armedBy : List LinkAction → List Recurring
  | [] => []
  | LinkAction.every t :: as => t :: armedBy as
  | _ :: as => armedBy as

/-- The number of connected events in a sequence. -/
def connectedCount : List LinkEvent → Nat
  | [] => 0
  | LinkEvent.ConnectedEvent :: evs => connectedCount evs + 1
  | _ :: evs => connectedCount evs

/-- The list `cs` repeated `n` times. -/
def repeatCalls (cs : List DroneCall) : Nat → List DroneCall
  | 0 => []
  | n + 1 => cs ++ repeatCalls cs n

/-! ## The frame loop of `main` -/

/-- A `color.RGBA` value. -/
structure RGBA where
  R : Nat
  G : Nat
  B : Nat
  A : Nat
  deriving DecidableEq, Repr

/-- The text of a `gocv.PutText` call: which line, with the arguments that
`fmt.Sprintf` (or `time.Now().Format`) formats. -/
inductive OverlayText where
  | battery (percentage : Int)
  | temperature (status : String)
  | pressure (status : String)
  | groundSpeed (north east : Int)
  | airSpeed (north east vertical : Int)
  | height (tenths : Int)
  | flying (yesNo : String)
  | onGround (yesNo : String)
  | hover (yesNo : String)
  | timestamp (now : String)
  deriving DecidableEq, Repr

/-- What one iteration of the frame loop does, in order. -/
inductive Effect where
  | println
  | logError (msg : String)
  | putText (text : OverlayText) (x y : Nat) (c : RGBA)
  | outputWrite
  | imEncode
  | streamUpdate
  deriving DecidableEq, Repr

/-- How one iteration ends: the loop goes on with the next frame (`continue`
or the end of the body), or the process panics. -/
inductive LoopResult where
  | next
  | panic
  deriving DecidableEq, Repr

/-- What the environment does during one iteration: whether `io.ReadFull`
returns an error, whether the decoded image is empty, whether
`gocv.NewMatFromBytes` returns an error, the formatted time, and whether
`output.Write`, `gocv.IMEncode` and `stream.Update` return an error. -/
structure FrameEnv where
  readFails : Bool
  imgEmpty : Bool
  decodeFails : Bool
  now : String
  writeFails : Bool
  encodeFails : Bool
  updateFails : Bool
  deriving DecidableEq, Repr

/-- The effects of an iteration and how it ends. -/
structure FrameOutcome where
  effects : List Effect
  result : LoopResult
  deriving DecidableEq, Repr

/-- The map `boolToStatus` of the frame loop. -/
def boolToStatus (b : Bool) : String := if b then "OK" else "HIGH"

/-- The map `boolToYesNo` of the frame loop. -/
def boolToYesNo (b : Bool) : String := if b then "YES" else "NOPE"

/-- The green of the telemetry lines. -/
def green : RGBA := ⟨0, 255, 0, 0⟩

/-- The blue of the timestamp line. -/
def blue : RGBA := ⟨0, 0, 255, 0⟩

/-- The ten `gocv.PutText` calls of the frame loop, in order. -/
def overlay (fd : tello.FlightData) (now : String) : List Effect :=
  [ Effect.putText (OverlayText.battery fd.BatteryPercentage) 10 20 green,
    Effect.putText (OverlayText.temperature (boolToStatus (!fd.TemperatureHigh))) 10 40 green,
    Effect.putText (OverlayText.pressure (boolToStatus (!fd.PressureState))) 10 60 green,
    Effect.putText (OverlayText.groundSpeed fd.NorthSpeed fd.EastSpeed) 10 80 green,
    Effect.putText (OverlayText.airSpeed fd.NorthSpeed fd.EastSpeed fd.VerticalSpeed) 10 100 green,
    Effect.putText (OverlayText.height fd.Height) 10 120 green,
    Effect.putText (OverlayText.flying (boolToYesNo fd.Flying)) 10 140 green,
    Effect.putText (OverlayText.onGround (boolToYesNo fd.OnGround)) 10 160 green,
    Effect.putText (OverlayText.hover (boolToYesNo fd.DroneHover)) 10 180 green,
    Effect.putText (OverlayText.timestamp now) 10 (frameY - 20) blue ]

/-- One iteration of the `for` loop of `main`.  `flightData` is the content of
the store when the iteration loads it.  The results of `output.Write` and
`stream.Update` are discarded by the code; the test after `stream.Update`
reads the `err` of `gocv.IMEncode`. -/
def frameIteration (flightData : Option tello.FlightData) (env : FrameEnv) : FrameOutcome :=
  if env.readFails then ⟨[Effect.println], LoopResult.next⟩
  else if env.imgEmpty then ⟨[], LoopResult.next⟩
  else if env.decodeFails then ⟨[Effect.logError "could not decode image"], LoopResult.next⟩
  else
    match flightData with
    | none => ⟨[], LoopResult.panic⟩
    | some fd =>
        let drawn := overlay fd env.now ++ [Effect.outputWrite, Effect.imEncode]
        let err := env.encodeFails
        if err then
          ⟨drawn ++ [Effect.logError "Could not encode image to jpeg"], LoopResult.next⟩
        else if err then
          ⟨drawn ++ [Effect.streamUpdate, Effect.logError "Could not update stream"],
            LoopResult.next⟩
        else
          ⟨drawn ++ [Effect.streamUpdate], LoopResult.next⟩

/-- The frame loop over a sequence of iterations, each with the content of the
telemetry store at its load; a panic ends the process. -/
def frameLoop : List (Option tello.FlightData × FrameEnv) → FrameOutcome
  | [] => ⟨[], LoopResult.next⟩
  | (fd, env) :: rest =>
      let o := frameIteration fd env
      match o.result with
      | LoopResult.panic => o
      | LoopResult.next =>
          let o2 := frameLoop rest
          ⟨o.effects ++ o2.effects, o2.result⟩

/-- The log lines among a list of effects. -/
def logLines : List Effect → List String
  | [] => []
  | Effect.logError msg :: es => msg :: logLines es
  | _ :: es => logLines es

/-! ## Shared lemmas -/

theorem translationTick_of_read (st : Shared) (s : stickPair)
    (h : getRightStick st = some s) : translationTick st = some (translationBody s) := by
  simp [translationTick, h]

theorem throttleTick_of_read (st : Shared) (s : stickPair)
    (h : getLeftStick st = some s) : throttleTick st = some (throttleBody s) := by
  simp [throttleTick, h]

theorem ValidatePitch_bounds (v : Int) :
    0 ≤ tello.ValidatePitch v offset ∧ tello.ValidatePitch v offset ≤ 100 := by
  unfold tello.ValidatePitch offset
  split_ifs with h <;> omega

theorem ValidatePitch_saturates (v : Int) (h : offset ≤ |v|) :
    tello.ValidatePitch v offset = 100 := by
  unfold tello.ValidatePitch
  rw [Int.natCast_natAbs, if_pos h]

theorem ValidatePitch_mono_abs (v1 v2 : Int) (h : |v1| ≤ |v2|) :
    tello.ValidatePitch v1 offset ≤ tello.ValidatePitch v2 offset := by
  have a1 := abs_nonneg v1
  have a2 := abs_nonneg v2
  unfold tello.ValidatePitch offset
  rw [Int.natCast_natAbs, Int.natCast_natAbs]
  split_ifs with h1 h2 h2 <;> omega

theorem ValidatePitch_small (v : Int) (h : 100 * |v| < offset) :
    tello.ValidatePitch v offset = 0 := by
  have a1 := abs_nonneg v
  unfold tello.ValidatePitch offset at *
  rw [Int.natCast_natAbs]
  split_ifs with h1 <;> omega

theorem ValidatePitch_tenth (v : Int) (h : offset ≤ 10 * |v|) :
    10 ≤ tello.ValidatePitch v offset := by
  have a1 := abs_nonneg v
  unfold tello.ValidatePitch offset at *
  rw [Int.natCast_natAbs]
  split_ifs with h1 <;> omega

theorem move_magnitude_bounds (s : stickPair) (c : DroneCall)
    (hc : c ∈ translationBody s ++ throttleBody s) :
    ∃ m, c.magnitude = some m ∧ 0 ≤ m ∧ m ≤ 100 := by
  have b1 := ValidatePitch_bounds s.x
  have b2 := ValidatePitch_bounds s.y
  simp only [translationBody, throttleBody, List.cons_append, List.nil_append,
    List.mem_cons, List.mem_singleton, List.not_mem_nil, or_false] at hc
  rcases hc with hc | hc | hc | hc <;> subst hc <;> split_ifs <;>
    first
      | exact ⟨_, rfl, by decide, by decide⟩
      | exact ⟨_, rfl, b1.1, b1.2⟩
      | exact ⟨_, rfl, b2.1, b2.2⟩

theorem callsOf_append (as bs : List LinkAction) :
    callsOf (as ++ bs) = callsOf as ++ callsOf bs := by
  induction as with
  | nil => rfl
  | cons a as ih => cases a <;> simp [callsOf, ih]

theorem armedBy_append (as bs : List LinkAction) :
    armedBy (as ++ bs) = armedBy as ++ armedBy bs := by
  induction as with
  | nil => rfl
  | cons a as ih => cases a <;> simp [armedBy, ih]

/-! ## The control ticks -/

/-- C1, as the spec states it, fails: after the axis event `RightY (-500)` the
next translation tick issues `Forward`, and no `Backward` call at all. -/
theorem translation_negative_y_is_not_backward :
    translationTick (stickOn (StickEvent.RightY (-500)) (workInit Shared.unwritten)).1
        = some [DroneCall.Forward 1, DroneCall.Right 0]
      ∧ tello.ValidatePitch (-500) offset = 1
      ∧ DroneCall.Backward (tello.ValidatePitch (-500) offset)
          ∉ translationBody ⟨0, -500⟩ := by
  decide

/-- C1, amended: for every right-stick value read by the translation tick, a
vertical value below `-10` makes the tick call `Forward` with
`ValidatePitch y offset`, and a value above `10` makes it call `Backward` with
`ValidatePitch y offset`; after the axis event `RightY (-500)` the next tick
calls `Forward (ValidatePitch (-500) offset)`. -/
theorem translation_vertical_direction (st : Shared) (s : stickPair)
    (h : getRightStick st = some s) :
    (s.y < -10 → ∃ c, translationTick st
        = some [DroneCall.Forward (tello.ValidatePitch s.y offset), c])
      ∧ (10 < s.y → ∃ c, translationTick st
        = some [DroneCall.Backward (tello.ValidatePitch s.y offset), c])
      ∧ translationTick (stickOn (StickEvent.RightY (-500)) (workInit Shared.unwritten)).1
        = some [DroneCall.Forward (tello.ValidatePitch (-500) offset), DroneCall.Right 0] := by
  rw [translationTick_of_read st s h]
  refine ⟨fun hy => ?_, fun hy => ?_, by decide⟩
  · exact ⟨_, by rw [translationBody, if_pos hy]⟩
  · have hn : ¬ s.y < -10 := by omega
    exact ⟨_, by rw [translationBody, if_neg hn, if_pos hy]⟩

theorem translation_vertical_direction_witness :
    (∃ c, translationTick (stickOn (StickEvent.RightY (-500)) (workInit Shared.unwritten)).1
        = some [DroneCall.Forward (tello.ValidatePitch (-500) offset), c])
      ∧ (∃ c, translationTick (stickOn (StickEvent.RightY 500) (workInit Shared.unwritten)).1
        = some [DroneCall.Backward (tello.ValidatePitch 500 offset), c]) :=
  ⟨(translation_vertical_direction
      (stickOn (StickEvent.RightY (-500)) (workInit Shared.unwritten)).1 ⟨0, -500⟩ rfl).1
      (by decide),
   (translation_vertical_direction
      (stickOn (StickEvent.RightY 500) (workInit Shared.unwritten)).1 ⟨0, 500⟩ rfl).2.1
      (by decide)⟩

/-- C2, as the spec states it, fails: with the left stick at `y = -2000` the
throttle/yaw tick issues `Up`, and no `Down` call at all. -/
theorem throttle_negative_y_is_not_down :
    throttleTick (stickOn (StickEvent.LeftY (-2000)) (workInit Shared.unwritten)).1
        = some [DroneCall.Up 6, DroneCall.Clockwise 0]
      ∧ tello.ValidatePitch (-2000) offset = 6
      ∧ DroneCall.Down (tello.ValidatePitch (-2000) offset)
          ∉ throttleBody ⟨0, -2000⟩ := by
  decide

/-- C2, amended: for every left-stick value read by the throttle/yaw tick, a
vertical value below `-1000` makes the tick call `Up` with
`ValidatePitch y offset`, and a value above `1000` makes it call `Down` with
`ValidatePitch y offset`. -/
theorem throttle_vertical_direction (st : Shared) (s : stickPair)
    (h : getLeftStick st = some s) :
    (s.y < -1000 → ∃ c, throttleTick st
        = some [DroneCall.Up (tello.ValidatePitch s.y offset), c])
      ∧ (1000 < s.y → ∃ c, throttleTick st
        = some [DroneCall.Down (tello.ValidatePitch s.y offset), c]) := by
  rw [throttleTick_of_read st s h]
  refine ⟨fun hy => ?_, fun hy => ?_⟩
  · exact ⟨_, by rw [throttleBody, if_pos hy]⟩
  · have hn : ¬ s.y < -1000 := by omega
    exact ⟨_, by rw [throttleBody, if_neg hn, if_pos hy]⟩

theorem throttle_vertical_direction_witness :
    (∃ c, throttleTick (stickOn (StickEvent.LeftY (-2000)) (workInit Shared.unwritten)).1
        = some [DroneCall.Up (tello.ValidatePitch (-2000) offset), c])
      ∧ (∃ c, throttleTick (stickOn (StickEvent.LeftY 2000) (workInit Shared.unwritten)).1
        = some [DroneCall.Down (tello.ValidatePitch 2000 offset), c]) :=
  ⟨(throttle_vertical_direction
      (stickOn (StickEvent.LeftY (-2000)) (workInit Shared.unwritten)).1 ⟨0, -2000⟩ rfl).1
      (by decide),
   (throttle_vertical_direction
      (stickOn (StickEvent.LeftY 2000) (workInit Shared.unwritten)).1 ⟨0, 2000⟩ rfl).2
      (by decide)⟩

/-- C4: in the translation tick a right-stick `y` in `[-10, 10]` gives
`Forward 0` and a right-stick `x` in `[-10, 10]` gives `Right 0`; in the
throttle/yaw tick a left-stick `y` in `[-1000, 1000]` gives `Up 0` and a
left-stick `x` in `[-20, 20]` gives `Clockwise 0`, the bounds included; each
tick always issues exactly two move calls, one per axis. -/
theorem dead_zone_zero_commands (st : Shared) (r l : stickPair)
    (hr : getRightStick st = some r) (hl : getLeftStick st = some l) :
    (-10 ≤ r.y ∧ r.y ≤ 10 → ∃ c, translationTick st = some [DroneCall.Forward 0, c])
      ∧ (-10 ≤ r.x ∧ r.x ≤ 10 → ∃ c, translationTick st = some [c, DroneCall.Right 0])
      ∧ (-1000 ≤ l.y ∧ l.y ≤ 1000 → ∃ c, throttleTick st = some [DroneCall.Up 0, c])
      ∧ (-20 ≤ l.x ∧ l.x ≤ 20 → ∃ c, throttleTick st = some [c, DroneCall.Clockwise 0])
      ∧ (∃ v h, translationTick st = some [v, h]
          ∧ v.magnitude.isSome = true ∧ h.magnitude.isSome = true)
      ∧ (∃ v h, throttleTick st = some [v, h]
          ∧ v.magnitude.isSome = true ∧ h.magnitude.isSome = true) := by
  rw [translationTick_of_read st r hr, throttleTick_of_read st l hl]
  refine ⟨fun hy => ?_, fun hx => ?_, fun hy => ?_, fun hx => ?_, ?_, ?_⟩
  · have h1 : ¬ r.y < -10 := by omega
    have h2 : ¬ r.y > 10 := by omega
    exact ⟨_, by rw [translationBody, if_neg h1, if_neg h2]⟩
  · have h1 : ¬ r.x > 10 := by omega
    have h2 : ¬ r.x < -10 := by omega
    exact ⟨_, by rw [translationBody, if_neg h1, if_neg h2]⟩
  · have h1 : ¬ l.y < -1000 := by omega
    have h2 : ¬ l.y > 1000 := by omega
    exact ⟨_, by rw [throttleBody, if_neg h1, if_neg h2]⟩
  · have h1 : ¬ l.x > 20 := by omega
    have h2 : ¬ l.x < -20 := by omega
    exact ⟨_, by rw [throttleBody, if_neg h1, if_neg h2]⟩
  · refine ⟨_, _, rfl, ?_, ?_⟩
    · split_ifs <;> rfl
    · split_ifs <;> rfl
  · refine ⟨_, _, rfl, ?_, ?_⟩
    · split_ifs <;> rfl
    · split_ifs <;> rfl

theorem dead_zone_zero_commands_witness :
    (∃ c, translationTick (stickRun [StickEvent.RightX (-10), StickEvent.RightY 10,
          StickEvent.LeftX 20, StickEvent.LeftY (-1000)] (workInit Shared.unwritten)).1
        = some [DroneCall.Forward 0, c])
      ∧ (∃ c, translationTick (stickRun [StickEvent.RightX (-10), StickEvent.RightY 10,
          StickEvent.LeftX 20, StickEvent.LeftY (-1000)] (workInit Shared.unwritten)).1
        = some [c, DroneCall.Right 0])
      ∧ (∃ c, throttleTick (stickRun [StickEvent.RightX (-10), StickEvent.RightY 10,
          StickEvent.LeftX 20, StickEvent.LeftY (-1000)] (workInit Shared.unwritten)).1
        = some [DroneCall.Up 0, c])
      ∧ (∃ c, throttleTick (stickRun [StickEvent.RightX (-10), StickEvent.RightY 10,
          StickEvent.LeftX 20, StickEvent.LeftY (-1000)] (workInit Shared.unwritten)).1
        = some [c, DroneCall.Clockwise 0]) :=
  have t := dead_zone_zero_commands
    (stickRun [StickEvent.RightX (-10), StickEvent.RightY 10,
      StickEvent.LeftX 20, StickEvent.LeftY (-1000)] (workInit Shared.unwritten)).1
    ⟨-10, 10⟩ ⟨20, -1000⟩ rfl rfl
  ⟨t.1 (by decide), t.2.1 (by decide), t.2.2.1 (by decide), t.2.2.2.1 (by decide)⟩

/-- C5: in the translation tick a right-stick `x` above `10` gives `Right`
and below `-10` gives `Left`; in the throttle/yaw tick a left-stick `x` above
`20` gives `Clockwise` and below `-20` gives `CounterClockwise`, each with
magnitude `ValidatePitch x offset`; the horizontal call of a tick is the same
for every vertical value of the stick. -/
theorem horizontal_direction (st : Shared) (r l : stickPair)
    (hr : getRightStick st = some r) (hl : getLeftStick st = some l) :
    (10 < r.x → ∃ c, translationTick st
        = some [c, DroneCall.Right (tello.ValidatePitch r.x offset)])
      ∧ (r.x < -10 → ∃ c, translationTick st
        = some [c, DroneCall.Left (tello.ValidatePitch r.x offset)])
      ∧ (20 < l.x → ∃ c, throttleTick st
        = some [c, DroneCall.Clockwise (tello.ValidatePitch l.x offset)])
      ∧ (l.x < -20 → ∃ c, throttleTick st
        = some [c, DroneCall.CounterClockwise (tello.ValidatePitch l.x offset)])
      ∧ (∀ y : Int, (translationBody ⟨r.x, y⟩)[1]? = (translationBody r)[1]?)
      ∧ (∀ y : Int, (throttleBody ⟨l.x, y⟩)[1]? = (throttleBody l)[1]?) := by
  rw [translationTick_of_read st r hr, throttleTick_of_read st l hl]
  refine ⟨fun hx => ?_, fun hx => ?_, fun hx => ?_, fun hx => ?_,
    fun y => by simp [translationBody], fun y => by simp [throttleBody]⟩
  · exact ⟨_, by rw [translationBody, if_pos hx]⟩
  · have h1 : ¬ r.x > 10 := by omega
    exact ⟨_, by rw [translationBody, if_neg h1, if_pos hx]⟩
  · exact ⟨_, by rw [throttleBody, if_pos hx]⟩
  · have h1 : ¬ l.x > 20 := by omega
    exact ⟨_, by rw [throttleBody, if_neg h1, if_pos hx]⟩

theorem horizontal_direction_witness :
    (∃ c, translationTick (stickRun [StickEvent.RightX 11, StickEvent.LeftX 21]
          (workInit Shared.unwritten)).1
        = some [c, DroneCall.Right (tello.ValidatePitch 11 offset)])
      ∧ (∃ c, translationTick (stickRun [StickEvent.RightX (-11), StickEvent.LeftX (-21)]
          (workInit Shared.unwritten)).1
        = some [c, DroneCall.Left (tello.ValidatePitch (-11) offset)])
      ∧ (∃ c, throttleTick (stickRun [StickEvent.RightX 11, StickEvent.LeftX 21]
          (workInit Shared.unwritten)).1
        = some [c, DroneCall.Clockwise (tello.ValidatePitch 21 offset)])
      ∧ (∃ c, throttleTick (stickRun [StickEvent.RightX (-11), StickEvent.LeftX (-21)]
          (workInit Shared.unwritten)).1
        = some [c, DroneCall.CounterClockwise (tello.ValidatePitch (-21) offset)]) :=
  have p := horizontal_direction
    (stickRun [StickEvent.RightX 11, StickEvent.LeftX 21] (workInit Shared.unwritten)).1
    ⟨11, 0⟩ ⟨21, 0⟩ rfl rfl
  have n := horizontal_direction
    (stickRun [StickEvent.RightX (-11), StickEvent.LeftX (-21)] (workInit Shared.unwritten)).1
    ⟨-11, 0⟩ ⟨-21, 0⟩ rfl rfl
  ⟨p.1 (by decide), n.2.1 (by decide), p.2.2.1 (by decide), n.2.2.2.1 (by decide)⟩

/-! ## Magnitudes -/

/-- C6, as the spec states it, fails: after the axis event `RightY 11`, a
value above the dead zone that an `int16` event can carry, the translation
tick issues `Backward 0`: the call is not `Forward` and its magnitude is zero. -/
theorem translation_eleven_has_zero_magnitude :
    isInt16 11 ∧ (10 : Int) < 11
      ∧ translationTick (stickOn (StickEvent.RightY 11) (workInit Shared.unwritten)).1
        = some [DroneCall.Backward 0, DroneCall.Right 0]
      ∧ tello.ValidatePitch 11 offset = 0 := by
  decide

/-- C6, amended: for every right-stick vertical value `y > 10` read by the
translation tick, the vertical call is `Backward` with magnitude
`ValidatePitch y offset`; that magnitude lies in `0..100`, is `0` whenever
`100 * y < offset` (so for `10 < y ≤ 327`), and is at least `10` whenever
`offset ≤ 10 * y` (so for `y ≥ 3277`). -/
theorem translation_above_dead_zone (st : Shared) (s : stickPair)
    (h : getRightStick st = some s) (hy : 10 < s.y) :
    (∃ c, translationTick st
        = some [DroneCall.Backward (tello.ValidatePitch s.y offset), c])
      ∧ 0 ≤ tello.ValidatePitch s.y offset
      ∧ tello.ValidatePitch s.y offset ≤ 100
      ∧ (100 * s.y < offset → tello.ValidatePitch s.y offset = 0)
      ∧ (offset ≤ 10 * s.y → 10 ≤ tello.ValidatePitch s.y offset) := by
  have hn : ¬ s.y < -10 := by omega
  have ha : |s.y| = s.y := abs_of_nonneg (by omega)
  refine ⟨?_, (ValidatePitch_bounds s.y).1, (ValidatePitch_bounds s.y).2,
    fun hs => ValidatePitch_small s.y (by rw [ha]; exact hs),
    fun hs => ValidatePitch_tenth s.y (by rw [ha]; exact hs)⟩
  exact ⟨_, by rw [translationTick_of_read st s h, translationBody, if_neg hn, if_pos hy]⟩

theorem translation_above_dead_zone_witness :
    tello.ValidatePitch 11 offset = 0 ∧ 10 ≤ tello.ValidatePitch 3277 offset :=
  ⟨(translation_above_dead_zone
      (stickOn (StickEvent.RightY 11) (workInit Shared.unwritten)).1 ⟨0, 11⟩ rfl
      (by decide)).2.2.2.1 (by decide),
   (translation_above_dead_zone
      (stickOn (StickEvent.RightY 3277) (workInit Shared.unwritten)).1 ⟨0, 3277⟩ rfl
      (by decide)).2.2.2.2 (by decide)⟩

/-- C7: for every axis value `v`, in particular every `int16` and `-32768`,
`ValidatePitch v offset` is defined, lies in `0..100`, and equals `100`
whenever `|v| ≥ offset`; every call issued by either tick is a move call whose
magnitude lies in `0..100`. -/
theorem magnitude_clamped (v : Int) :
    0 ≤ tello.ValidatePitch v offset
      ∧ tello.ValidatePitch v offset ≤ 100
      ∧ (offset ≤ |v| → tello.ValidatePitch v offset = 100)
      ∧ tello.ValidatePitch (-32768) offset = 100
      ∧ (∀ (s : stickPair) (c : DroneCall), c ∈ translationBody s ++ throttleBody s →
          ∃ m, c.magnitude = some m ∧ 0 ≤ m ∧ m ≤ 100) :=
  ⟨(ValidatePitch_bounds v).1, (ValidatePitch_bounds v).2, ValidatePitch_saturates v,
    by decide, move_magnitude_bounds⟩

theorem magnitude_clamped_witness :
    tello.ValidatePitch 40000 offset = 100
      ∧ (∃ m, (DroneCall.Forward 100).magnitude = some m ∧ 0 ≤ m ∧ m ≤ 100) :=
  ⟨(magnitude_clamped 40000).2.2.1 (by norm_num [offset]),
   (magnitude_clamped 40000).2.2.2.2 ⟨-32768, -32768⟩ (DroneCall.Forward 100) (by decide)⟩

/-- C10, as the spec states it, fails: `-32767 ≤ 0` are both within
`[-offset, offset]`, yet `ValidatePitch (-32767) offset = 100` exceeds
`ValidatePitch 0 offset = 0`. -/
theorem ValidatePitch_not_monotone :
    -offset ≤ (-32767 : Int) ∧ (-32767 : Int) ≤ 0 ∧ (0 : Int) ≤ offset
      ∧ tello.ValidatePitch (-32767) offset = 100
      ∧ tello.ValidatePitch 0 offset = 0
      ∧ ¬ (tello.ValidatePitch (-32767) offset ≤ tello.ValidatePitch 0 offset) := by
  decide

/-- C10, amended: `ValidatePitch` is monotone in the magnitude of the axis
value: `|v1| ≤ |v2|` gives `ValidatePitch v1 offset ≤ ValidatePitch v2 offset`;
so it is non-decreasing over the values `0 ≤ v1 ≤ v2` and non-increasing over
the values `v1 ≤ v2 ≤ 0`; and for `|v1| ≥ offset` it stays at `100`. -/
theorem ValidatePitch_monotone_in_magnitude (v1 v2 : Int) :
    (|v1| ≤ |v2| → tello.ValidatePitch v1 offset ≤ tello.ValidatePitch v2 offset)
      ∧ (0 ≤ v1 → v1 ≤ v2 → tello.ValidatePitch v1 offset ≤ tello.ValidatePitch v2 offset)
      ∧ (v1 ≤ v2 → v2 ≤ 0 → tello.ValidatePitch v2 offset ≤ tello.ValidatePitch v1 offset)
      ∧ (offset ≤ |v1| → tello.ValidatePitch v1 offset = 100) := by
  refine ⟨ValidatePitch_mono_abs v1 v2, fun h0 h => ?_, fun h h0 => ?_,
    ValidatePitch_saturates v1⟩
  · exact ValidatePitch_mono_abs v1 v2
      (by rw [abs_of_nonneg h0, abs_of_nonneg (le_trans h0 h)]; exact h)
  · exact ValidatePitch_mono_abs v2 v1
      (by rw [abs_of_nonpos h0, abs_of_nonpos (le_trans h h0)]; omega)

theorem ValidatePitch_monotone_in_magnitude_witness :
    tello.ValidatePitch (-500) offset ≤ tello.ValidatePitch 20000 offset
      ∧ tello.ValidatePitch 500 offset ≤ tello.ValidatePitch 20000 offset
      ∧ tello.ValidatePitch (-500) offset ≤ tello.ValidatePitch (-20000) offset
      ∧ tello.ValidatePitch (-32768) offset = 100 :=
  ⟨(ValidatePitch_monotone_in_magnitude (-500) 20000).1 (by norm_num),
   (ValidatePitch_monotone_in_magnitude 500 20000).2.1 (by decide) (by decide),
   (ValidatePitch_monotone_in_magnitude (-20000) (-500)).2.2.1 (by decide) (by decide),
   (ValidatePitch_monotone_in_magnitude (-32768) 0).2.2.2 (by norm_num [offset])⟩

/-! ## Link events -/

/-- C9: the handler of a connected event issues `StartVideo`,
`SetVideoEncoderRate VideoBitRate1M` and `SetExposure 0`, once each and in
this order, then arms one recurring task of period 100 ms whose firing issues
exactly one `StartVideo`; it leaves the stores unchanged; over any sequence of
link events the calls issued and the tasks armed are these, once per connected
event. -/
theorem connected_event_handling (st : Shared) (evs : List LinkEvent) :
    droneOn LinkEvent.ConnectedEvent st
        = (st, [ LinkAction.call DroneCall.StartVideo,
                 LinkAction.call (DroneCall.SetVideoEncoderRate tello.VideoBitRate.VideoBitRate1M),
                 LinkAction.call (DroneCall.SetExposure 0),
                 LinkAction.every ⟨100, [DroneCall.StartVideo]⟩ ])
      ∧ callsOf (droneOn LinkEvent.ConnectedEvent st).2
        = [ DroneCall.StartVideo,
            DroneCall.SetVideoEncoderRate tello.VideoBitRate.VideoBitRate1M,
            DroneCall.SetExposure 0 ]
      ∧ armedBy (droneOn LinkEvent.ConnectedEvent st).2 = [⟨100, [DroneCall.StartVideo]⟩]
      ∧ Recurring.fire ⟨100, [DroneCall.StartVideo]⟩ = [DroneCall.StartVideo]
      ∧ callsOf (droneRun evs st).2
        = repeatCalls [ DroneCall.StartVideo,
            DroneCall.SetVideoEncoderRate tello.VideoBitRate.VideoBitRate1M,
            DroneCall.SetExposure 0 ] (connectedCount evs)
      ∧ armedBy (droneRun evs st).2
        = List.replicate (connectedCount evs) ⟨100, [DroneCall.StartVideo]⟩ := by
  refine ⟨rfl, rfl, rfl, rfl, ?_, ?_⟩
  · induction evs generalizing st with
    | nil => rfl
    | cons ev evs ih =>
        cases ev with
        | ConnectedEvent =>
            simp only [droneRun, callsOf_append, connectedCount, repeatCalls, ih]
            rfl
        | VideoFrameEvent pkt writeFails =>
            cases writeFails <;>
              simp [droneRun, droneOn, callsOf_append, connectedCount, callsOf, ih]
        | FlightDataEvent fd =>
            simp [droneRun, droneOn, connectedCount, callsOf, ih]
  · induction evs generalizing st with
    | nil => rfl
    | cons ev evs ih =>
        cases ev with
        | ConnectedEvent =>
            simp only [droneRun, armedBy_append, connectedCount, List.replicate_succ, ih]
            rfl
        | VideoFrameEvent pkt writeFails =>
            cases writeFails <;>
              simp [droneRun, droneOn, armedBy_append, connectedCount, armedBy, ih]
        | FlightDataEvent fd =>
            simp [droneRun, droneOn, connectedCount, armedBy, ih]

/-! ## The frame loop -/

/-- C3 fails on the code: for a frame that is read, non-empty and decoded
while the telemetry store has never been written, the iteration panics at the
load of `flightData`: nothing is drawn, written or encoded, and the loop
processes no later frame. -/
theorem frame_before_telemetry_panics (now : String) (w e u : Bool)
    (rest : List (Option tello.FlightData × FrameEnv)) :
    (workInit Shared.unwritten).flightData = none
      ∧ frameIteration (workInit Shared.unwritten).flightData ⟨false, false, false, now, w, e, u⟩
        = ⟨[], LoopResult.panic⟩
      ∧ frameLoop (((workInit Shared.unwritten).flightData,
            ⟨false, false, false, now, w, e, u⟩) :: rest)
        = ⟨[], LoopResult.panic⟩ := by
  refine ⟨rfl, rfl, rfl⟩

/-- C8, as the spec states it, fails: on an annotated frame whose
`output.Write` returns an error, with the encode and the stream update
succeeding, the iteration emits no log line. -/
theorem recording_failure_is_not_logged :
    (frameIteration (some ⟨87, false, false, 0, 0, 0, 12, true, false, true⟩)
        ⟨false, false, false, "Mon, 02 Jan 2006 15:04:05 MST", true, false, false⟩).effects
      = overlay ⟨87, false, false, 0, 0, 0, 12, true, false, true⟩
          "Mon, 02 Jan 2006 15:04:05 MST"
        ++ [Effect.outputWrite, Effect.imEncode, Effect.streamUpdate]
    ∧ logLines (frameIteration (some ⟨87, false, false, 0, 0, 0, 12, true, false, true⟩)
        ⟨false, false, false, "Mon, 02 Jan 2006 15:04:05 MST", true, false, false⟩).effects
      = [] := by
  decide

/-- C8, amended: for every annotated frame (read, non-empty, decoded, with
telemetry present) the iteration ends by going on to the next frame, whatever
the sinks return; `output.Write` and then `gocv.IMEncode` are always called;
the result of `output.Write` is discarded, so a recording failure changes
nothing in the iteration and the same frame is still re-encoded; a failure
of `gocv.IMEncode` is logged as "Could not encode image to jpeg" and the
frame is not offered to the stream; when the encode succeeds the frame is
offered to the stream with `stream.Update`. -/
theorem sink_failures_are_not_fatal (fd : tello.FlightData) (env : FrameEnv)
    (rest : List (Option tello.FlightData × FrameEnv))
    (h1 : env.readFails = false) (h2 : env.imgEmpty = false) (h3 : env.decodeFails = false) :
    (frameIteration (some fd) env).result = LoopResult.next
      ∧ frameLoop ((some fd, env) :: rest)
        = ⟨(frameIteration (some fd) env).effects ++ (frameLoop rest).effects,
            (frameLoop rest).result⟩
      ∧ (∃ tail, (frameIteration (some fd) env).effects
          = overlay fd env.now ++ [Effect.outputWrite, Effect.imEncode] ++ tail)
      ∧ (∀ b : Bool, frameIteration (some fd) { env with writeFails := b }
          = frameIteration (some fd) env)
      ∧ (env.encodeFails = true → (frameIteration (some fd) env).effects
          = overlay fd env.now ++ [Effect.outputWrite, Effect.imEncode,
              Effect.logError "Could not encode image to jpeg"])
      ∧ (env.encodeFails = false →
          Effect.streamUpdate ∈ (frameIteration (some fd) env).effects) := by
  have hres : (frameIteration (some fd) env).result = LoopResult.next := by
    simp only [frameIteration, h1, h2, h3]
    cases env.encodeFails <;> rfl
  refine ⟨hres, ?_, ?_, fun b => ?_, fun he => ?_, fun he => ?_⟩
  · simp only [frameLoop, hres]
  · simp only [frameIteration, h1, h2, h3]
    cases env.encodeFails
    · exact ⟨[Effect.streamUpdate], by simp⟩
    · exact ⟨[Effect.logError "Could not encode image to jpeg"], by simp⟩
  · simp only [frameIteration, h1, h2, h3]
  · simp [frameIteration, h1, h2, h3, he]
  · simp [frameIteration, h1, h2, h3, he]

theorem sink_failures_are_not_fatal_witness :
    (frameIteration (some ⟨87, false, false, 0, 0, 0, 12, true, false, true⟩)
        ⟨false, false, false, "Mon, 02 Jan 2006 15:04:05 MST", true, true, false⟩).effects
      = overlay ⟨87, false, false, 0, 0, 0, 12, true, false, true⟩
          "Mon, 02 Jan 2006 15:04:05 MST"
        ++ [Effect.outputWrite, Effect.imEncode,
            Effect.logError "Could not encode image to jpeg"]
    ∧ Effect.streamUpdate ∈
      (frameIteration (some ⟨87, false, false, 0, 0, 0, 12, true, false, true⟩)
        ⟨false, false, false, "Mon, 02 Jan 2006 15:04:05 MST", true, false, true⟩).effects :=
  ⟨(sink_failures_are_not_fatal ⟨87, false, false, 0, 0, 0, 12, true, false, true⟩
      ⟨false, false, false, "Mon, 02 Jan 2006 15:04:05 MST", true, true, false⟩ []
      rfl rfl rfl).2.2.2.2.1 rfl,
   (sink_failures_are_not_fatal ⟨87, false, false, 0, 0, 0, 12, true, false, true⟩
      ⟨false, false, false, "Mon, 02 Jan 2006 15:04:05 MST", true, false, true⟩ []
      rfl rfl rfl).2.2.2.2.2 rfl⟩

end FlightControl
